import Mathlib

/-!
Shallow embedding of `src/gevent/resolver/ares.py` (the c-ares based
hostname resolver) and proofs about the claims of its specification.

Modelling conventions:

* The native c-ares engine is an external collaborator.  A query response
  is `Except Gai HostResult`: either a resolution error (`gaierror`) or an
  `ares_host_result` value (a `(hostname, aliaslist, addrlist)` tuple
  carrying a `family` attribute).
* Python byte/str hostnames are Lean `String`s (the encoding step is the
  identity on the ASCII inputs the claims are about).
* Socket addresses are `SockAddr`: a 2-tuple for IPv4, a 4-tuple for IPv6.
* The cooperative blocking on a `Waiter` is modelled by evaluating the
  completion events in their arrival order:  the `_Values` aggregator is a
  fold of its `__call__` method over the list of completions, after which
  `get()` inspects the accumulated state.
* Session handles (`self.cares`) are identified by `Nat` tokens; `is`
  identity between handles is token equality (each constructed session
  carries a fresh token).
* Port/service normalisation (`_lookup_port`) is an external collaborator;
  the slow path receives its already-computed numeric port and implied
  socket-type set.
-/

namespace AresResolver

/-- `AF_UNSPEC` from `gevent.socket`. -/
def AF_UNSPEC : Nat := 0

/-- `AF_INET` from `gevent.socket`. -/
def AF_INET : Nat := 2

/-- `AF_INET6` from `gevent.socket`. -/
def AF_INET6 : Nat := 10

/-- `SOCK_STREAM` from `gevent.socket`. -/
def SOCK_STREAM : Nat := 1

/-- `SOCK_DGRAM` from `gevent.socket`. -/
def SOCK_DGRAM : Nat := 2

/-- `SOCK_RAW` from `gevent.socket`. -/
def SOCK_RAW : Nat := 3

/-- A resolution failure (`_socket.gaierror`): numeric code plus message. -/
structure Gai where
  code : Int
  msg : String
deriving DecidableEq, Repr

/-- An `ares_host_result`: a `(hostname, aliaslist, addrlist)` tuple subclass
carrying the queried address family as an extra attribute. -/
structure HostResult where
  family : Nat
  hostname : String
  aliases : List String
  addrs : List String
deriving DecidableEq, Repr

/-- Python `==` on two `ares_host_result` values compares only the tuple
part `(hostname, aliaslist, addrlist)`; the `family` attribute does not
take part in tuple equality.  Used by the dedup step of `_getaddrinfo`. -/
def hrTupleEq (x y : HostResult) : Bool :=
  x.hostname == y.hostname && x.aliases == y.aliases && x.addrs == y.addrs

/-- A socket address as it appears inside a `getaddrinfo` result tuple:
`(addr, port)` for IPv4, `(addr, port, flowinfo, scope_id)` for IPv6. -/
inductive SockAddr
  | v4 (addr : String) (port : Nat)
  | v6 (addr : String) (port : Nat) (flow scope : Nat)
deriving DecidableEq, Repr

/-- The host component `sockaddr[0]` of a socket address. -/
def sockAddrHost : SockAddr → String
  | .v4 a _ => a
  | .v6 a _ _ _ => a

/-- A `getaddrinfo` result tuple
`(family, socktype, proto, canonname, sockaddr)`. -/
structure ResTuple where
  family : Nat
  socktype : Nat
  proto : Nat
  canonname : String
  sockaddr : SockAddr
deriving DecidableEq, Repr

/-- The canonical `socktype_proto` triples of `_getaddrinfo`:
`[(SOCK_STREAM, 6), (SOCK_DGRAM, 17), (SOCK_RAW, 0)]`. -/
def socktypeProtoBase : List (Nat × Nat) :=
  [(SOCK_STREAM, 6), (SOCK_DGRAM, 17), (SOCK_RAW, 0)]

/-- `if socktypes: socktype_proto = [(x, y) for (x, y) in socktype_proto if x in socktypes]` -/
def filterBySocktypes (socktypes : List Nat) (l : List (Nat × Nat)) : List (Nat × Nat) :=
  if socktypes.isEmpty then l else l.filter (fun xy => socktypes.contains xy.1)

/-- `if proto: socktype_proto = [(x, y) for (x, y) in socktype_proto if proto == y]` -/
def filterByProto (proto : Nat) (l : List (Nat × Nat)) : List (Nat × Nat) :=
  if proto = 0 then l else l.filter (fun xy => proto == xy.2)

/-- The `(socktype, proto)` expansion list after both filters of
`_getaddrinfo` (lines 201–205 of `ares.py`). -/
def socktypeProto (socktypes : List Nat) (proto : Nat) : List (Nat × Nat) :=
  filterByProto proto (filterBySocktypes socktypes socktypeProtoBase)

/-! ### The `_Values` aggregator -/

/-- The mutable state of a `_Values` instance: remaining completion count,
collected successful values (arrival order), and the last recorded error. -/
structure ValuesState where
  count : Int
  values : List HostResult
  error : Option Gai
deriving Repr

/-- `_Values.__call__(source)`: decrement the count; on success append
`source.value` to `values`; on failure overwrite `error` with
`source.exception`. -/
def valuesCall (st : ValuesState) (source : Except Gai HostResult) : ValuesState :=
  { count := st.count - 1
    values := match source with
              | .ok v => st.values ++ [v]
              | .error _ => st.values
    error := match source with
             | .ok _ => st.error
             | .error e => some e }

/-- Run a `_Values(hub, N)` aggregator to completion: fold `__call__` over
the N completion events in arrival order.  (The waiter is switched exactly
when the count reaches zero, i.e. after the last event; `get()` then
observes this final state.) -/
def valuesRun (events : List (Except Gai HostResult)) : ValuesState :=
  events.foldl valuesCall { count := (events.length : Int), values := [], error := none }

/-- `_Values.get()` after the waiter has been woken: return the collected
values if any; otherwise raise the recorded error (the code asserts that an
error was recorded in that case). -/
def valuesGet (st : ValuesState) : Except Gai (List HostResult) :=
  if st.values.isEmpty then .error (st.error.getD ⟨0, "assertion failed: error is None"⟩)
  else .ok st.values

/-- The subsequence of successful completion values, in arrival order. -/
def successes (events : List (Except Gai HostResult)) : List HostResult :=
  events.filterMap (fun e => match e with | .ok v => some v | .error _ => none)

/-- The payload of the last failing completion event, if any. -/
def lastErrOf : List (Except Gai HostResult) → Option Gai
  | [] => none
  | x :: rest =>
    match lastErrOf rest with
    | some g => some g
    | none => match x with
              | .error g => some g
              | .ok _ => none

/-! ### Address assembly (`_getaddrinfo` slow path, lines 199–255) -/

/-- Expansion of one IPv4 address into result tuples, one per filtered
`(socktype, proto)` pair: `(AF_INET, socktype4, proto4, '', (addr, port))`. -/
def expand4 (stp : List (Nat × Nat)) (port : Nat) (addr : String) : List ResTuple :=
  stp.map (fun sp => ⟨AF_INET, sp.1, sp.2, "", .v4 addr port⟩)

/-- Expansion of one IPv6 address into result tuples, one per filtered
`(socktype, proto)` pair: `(AF_INET6, socktype6, proto6, '', (addr, port, 0, 0))`. -/
def expand6 (stp : List (Nat × Nat)) (port : Nat) (addr : String) : List ResTuple :=
  stp.map (fun sp => ⟨AF_INET6, sp.1, sp.2, "", .v6 addr port 0 0⟩)

/-- The inner loop over one IPv6 record's address list: each `'::1'` address
is expanded into `result` (the loopback bucket, first component), every
other address into `result6` (second component), in iteration order. -/
def addrLoop6 (stp : List (Nat × Nat)) (port : Nat) : List String → List ResTuple × List ResTuple
  | [] => ([], [])
  | a :: rest =>
    let p := addrLoop6 stp port rest
    if a = "::1" then (expand6 stp port a ++ p.1, p.2)
    else (p.1, expand6 stp port a ++ p.2)

/-- The loop `for addrs in values:` of `_getaddrinfo`, producing the three
accumulation lists `(result, result4, result6)`: IPv4 records are expanded
into `result4`, IPv6 records are split by `addrLoop6` between `result`
(loopback) and `result6`; records of any other family are skipped. -/
def valuesLoop (stp : List (Nat × Nat)) (port : Nat) :
    List HostResult → List ResTuple × List ResTuple × List ResTuple
  | [] => ([], [], [])
  | r :: rest =>
    let acc := valuesLoop stp port rest
    if r.family = AF_INET then
      (acc.1, r.addrs.flatMap (expand4 stp port) ++ acc.2.1, acc.2.2)
    else if r.family = AF_INET6 then
      let p := addrLoop6 stp port r.addrs
      (p.1 ++ acc.1, acc.2.1, p.2 ++ acc.2.2)
    else acc

/-- `if len(values) == 2 and values[0] == values[1]: values.pop()` —
collapse a duplicated dual-stack answer (tuple equality, see `hrTupleEq`). -/
def dedupValues : List HostResult → List HostResult
  | [x, y] => if hrTupleEq x y then [x] else [x, y]
  | other => other

/-- Lines 226–255 of `_getaddrinfo`: build the three buckets, concatenate
`result += result4 + result6`, and raise `gaierror(-5)` on an empty list. -/
def assembleValues (stp : List (Nat × Nat)) (port : Nat) (values : List HostResult) :
    Except Gai (List ResTuple) :=
  let abc := valuesLoop stp port values
  let result := abc.1 ++ abc.2.1 ++ abc.2.2
  if result.isEmpty then .error ⟨-5, "No address associated with hostname"⟩
  else .ok result

/-- The engine's behaviour for one host: the response each per-family
`gethostbyname` query would complete with, and (for the dual-family case)
whether the `AF_INET` completion arrives before the `AF_INET6` one. -/
structure AresEngine where
  resp4 : Except Gai HostResult
  resp6 : Except Gai HostResult
  inetFirst : Bool
deriving Repr

/-- The completion events of the dual-family (`AF_UNSPEC`) dispatch, in
arrival order. -/
def unspecEvents (eng : AresEngine) : List (Except Gai HostResult) :=
  if eng.inetFirst then [eng.resp4, eng.resp6] else [eng.resp6, eng.resp4]

/-- The family dispatch of `_getaddrinfo` (lines 209–220): which completion
events feed the aggregator, or an immediate `gaierror(5)` for an
unsupported family. -/
def queryEvents (eng : AresEngine) (family : Nat) : Except Gai (List (Except Gai HostResult)) :=
  if family = AF_UNSPEC then .ok (unspecEvents eng)
  else if family = AF_INET then .ok [eng.resp4]
  else if family = AF_INET6 then .ok [eng.resp6]
  else .error ⟨5, "ai_family not supported"⟩

/-- The slow path of `_getaddrinfo` (everything after the fast-path return
at line 196), for an already-normalised port and socket-type set: dispatch
the per-family queries, join them through `_Values`, dedup, assemble, and
fail on an empty result. -/
def getaddrinfoSlow (eng : AresEngine) (family : Nat) (port : Nat)
    (socktypes : List Nat) (proto : Nat) : Except Gai (List ResTuple) :=
  match queryEvents eng family with
  | .error e => .error e
  | .ok events =>
    match valuesGet (valuesRun events) with
    | .error e => .error e
    | .ok values0 => assembleValues (socktypeProto socktypes proto) port (dedupValues values0)

/-! ### The retry loop (`getaddrinfo`, `gethostbyaddr`, `getnameinfo`, lines 257–264, 295–303, 352–359) -/

/-- One iteration's observable data: the outcome of the attempt issued
against the session captured at its start, paired with the token of
`self.cares` at the moment the exception handler (or return) runs. -/
def retryLoop {α : Type} (s : Nat) : List (Except Gai α × Nat) → Option (Except Gai α)
  | [] => none
  | (out, s2) :: rest =>
    match out with
    | .ok v => some (.ok v)
    | .error e => if s2 = s then some (.error e) else retryLoop s2 rest

/-- The session token captured at the start of attempt `k` of the retry
loop: the initial token for `k = 0`, afterwards the current token observed
at the end of the previous attempt. -/
def sessionBefore {α : Type} (s : Nat) : List (Except Gai α × Nat) → Nat → Nat
  | _, 0 => s
  | [], _ + 1 => s
  | (_, s2) :: rest, k + 1 => sessionBefore s2 rest k

/-! ### The fork guard (`_on_fork`, lines 130–136) -/

/-- A resolver-engine session: identity token plus the creation parameters
it was constructed with. -/
structure Session where
  ident : Nat
  params : Nat
deriving DecidableEq, Repr

/-- The state of a `Resolver` instance relevant to `_on_fork`, plus the
loop's callback bookkeeping: sessions whose `destroy` has been scheduled
via `run_callback` (to run later) and sessions actually destroyed so far. -/
structure ResolverState where
  cares : Session
  pid : Nat
  params : Nat
  scheduledDestroy : List Session
  destroyed : List Session
deriving Repr

/-- `_on_fork`: if the current pid differs from the stored one, schedule
`self.cares.destroy` on the loop, construct a fresh session with the stored
creation parameters (`freshIdent` is its new identity token), and update
the stored pid; otherwise do nothing. -/
def onFork (st : ResolverState) (newPid : Nat) (freshIdent : Nat) : ResolverState :=
  if newPid ≠ st.pid then
    { cares := ⟨freshIdent, st.params⟩
      pid := newPid
      params := st.params
      scheduledDestroy := st.scheduledDestroy ++ [st.cares]
      destroyed := st.destroyed }
  else st

/-! ### `gethostbyname_ex` (lines 148–177) -/

/-- The body of the `try:` block of one `gethostbyname_ex` attempt: get the
engine's response; raise `gaierror(-5)` if its address list is empty;
otherwise return the `(hostname, aliaslist, ipaddrlist)` triple. -/
def gethostbynameExInner (resp : Except Gai HostResult) :
    Except Gai (String × List String × List String) :=
  match resp with
  | .error e => .error e
  | .ok r =>
    if r.addrs.isEmpty then .error ⟨-5, "No address associated with hostname"⟩
    else .ok (r.hostname, r.aliases, r.addrs)

/-- The hardcoded result for the literal broadcast address. -/
def broadcastTriple : String × List String × List String :=
  ("255.255.255.255", [], ["255.255.255.255"])

/-- The `while True:` loop of `gethostbyname_ex`: each attempt is the
engine response it would observe plus the current session token at the
`except gaierror` handler.  On a `gaierror` with the session unchanged, the
literal `255.255.255.255` is special-cased to `broadcastTriple`, any other
host re-raises; with the session changed the whole attempt is retried. -/
def gethostbynameExLoop (hostname : String) (s : Nat) :
    List (Except Gai HostResult × Nat) → Option (Except Gai (String × List String × List String))
  | [] => none
  | (resp, s2) :: rest =>
    match gethostbynameExInner resp with
    | .ok v => some (.ok v)
    | .error e =>
      if s2 = s then
        if hostname = "255.255.255.255" then some (.ok broadcastTriple)
        else some (.error e)
      else gethostbynameExLoop hostname s2 rest

/-! ### `_gethostbyaddr` (lines 266–293) -/

/-- The engine's possible reactions to a `gethostbyaddr` query: a triple,
an `InvalidIP` rejection of the input's syntax, or a resolution failure. -/
inductive RevResp
  | ok (v : String × List String × List String)
  | invalidIP
  | fail (e : Gai)
deriving Repr

/-- The observable outcome of one `_gethostbyaddr` attempt: a triple, a
propagated `gaierror`, or a propagated `InvalidIP` for the named input. -/
inductive RevOutcome
  | ok (v : String × List String × List String)
  | gaiFail (e : Gai)
  | invalidIPRaised (addr : String)
deriving DecidableEq, Repr

/-- Map an engine reverse response for input `a` to an attempt outcome. -/
def revOutcomeOf (r : RevResp) (a : String) : RevOutcome :=
  match r with
  | .ok v => .ok v
  | .fail e => .gaiFail e
  | .invalidIP => .invalidIPRaised a

/-- `_gethostbyaddr(ip)`: try the reverse query; on `InvalidIP`, forward
resolve `ip` through `_getaddrinfo(ip, None, AF_UNSPEC, SOCK_DGRAM)` (its
result is the `fwd` argument); re-raise the original `InvalidIP` if that
result is empty or its first numeric address equals `ip`; otherwise retry
the reverse query once with the canonical address `result[0][-1][0]`. -/
def gethostbyaddrAttempt (rev : String → RevResp) (fwd : Except Gai (List ResTuple))
    (ip : String) : RevOutcome :=
  match rev ip with
  | .ok v => .ok v
  | .fail e => .gaiFail e
  | .invalidIP =>
    match fwd with
    | .error e => .gaiFail e
    | .ok result =>
      match result with
      | [] => .invalidIPRaised ip
      | t :: _ =>
        let ip2 := sockAddrHost t.sockaddr
        if ip2 = ip then .invalidIPRaised ip
        else revOutcomeOf (rev ip2) ip2

/-! ### `_getnameinfo` up to the native query (lines 305–336) -/

/-- A well-shaped `getnameinfo` socket-address argument: host string, port,
and any further elements (`sockaddr[2:]`, the flow/scope fields).  Its
Python length is `2 + rest.length`; shape/type errors on the first two
elements are raised earlier and are not modelled here. -/
structure PySockAddr where
  host : String
  port : Nat
  rest : List Nat
deriving DecidableEq, Repr

/-- What `_getnameinfo` does before (or instead of) issuing the native
`cares.getnameinfo` query: raise a `socket.error`, propagate a `gaierror`
from address resolution, hit the `reraise` branch on an empty resolution
result, or issue the native query with the given address tuple
`(host, port, extras)`. -/
inductive NameInfoPre
  | sockErr (msg : String)
  | gaiErr (e : Gai)
  | reraiseEmpty
  | query (addr : String × Nat × List Nat) (flags : Nat)
deriving DecidableEq, Repr

/-- `address[:2] + sockaddr[2:]`: the canonical address truncated to
`(host, port)` and extended with the supplied trailing elements. -/
def truncExtend (x : SockAddr) (rest : List Nat) : String × Nat × List Nat :=
  match x with
  | .v4 a p => (a, p, rest)
  | .v6 a p _ _ => (a, p, rest)

/-- The address tuple as passed through unchanged (families other than
`AF_INET`/`AF_INET6` leave `address` untouched). -/
def asQueryAddr : SockAddr → String × Nat × List Nat
  | .v4 a p => (a, p, [])
  | .v6 a p f sc => (a, p, [f, sc])

/-- `_getnameinfo(sockaddr, flags)` from the `_getaddrinfo` call to the
point where `cares.getnameinfo` is issued: `fwd` is the outcome of
`_getaddrinfo(sockaddr[0], str(sockaddr[1]), AF_UNSPEC, SOCK_DGRAM)`.
Empty result hits the `reraise` branch; more than one result raises a
`socket.error`; an IPv4 result with a sockaddr length other than 2 raises
`IPv4 sockaddr must be 2 tuple`; an IPv6 result rebuilds the address as
`address[:2] + sockaddr[2:]`; then the native query is issued. -/
def getnameinfoPre (fwd : Except Gai (List ResTuple)) (sa : PySockAddr) (flags : Nat) :
    NameInfoPre :=
  match fwd with
  | .error e => .gaiErr e
  | .ok result =>
    if result.isEmpty then .reraiseEmpty
    else if result.length ≠ 1 then .sockErr "sockaddr resolved to multiple addresses"
    else
      match result with
      | [] => .reraiseEmpty
      | t :: _ =>
        if t.family = AF_INET then
          if 2 + sa.rest.length ≠ 2 then .sockErr "IPv4 sockaddr must be 2 tuple"
          else .query (asQueryAddr t.sockaddr) flags
        else if t.family = AF_INET6 then
          .query (truncExtend t.sockaddr sa.rest) flags
        else .query (asQueryAddr t.sockaddr) flags

/-- `true` exactly on a successful-but-empty result (`.ok []`); used to
state that the slow path never produces one. -/
def isOkEmpty : Except Gai (List ResTuple) → Bool
  | .ok [] => true
  | _ => false

/-- `true` exactly on the `reraise`-on-empty branch of `_getnameinfo`. -/
def isReraiseEmpty : NameInfoPre → Bool
  | .reraiseEmpty => true
  | _ => false

/-! ### Helper lemmas -/

lemma mem_expand4 {stp : List (Nat × Nat)} {port : Nat} {a : String} {t : ResTuple}
    (h : t ∈ expand4 stp port a) : t.family = AF_INET := by
  rcases List.mem_map.1 h with ⟨sp, _, rfl⟩
  rfl

lemma mem_expand6 {stp : List (Nat × Nat)} {port : Nat} {a : String} {t : ResTuple}
    (h : t ∈ expand6 stp port a) : t.family = AF_INET6 ∧ sockAddrHost t.sockaddr = a := by
  rcases List.mem_map.1 h with ⟨sp, _, rfl⟩
  exact ⟨rfl, rfl⟩

lemma mem_addrLoop6 (stp : List (Nat × Nat)) (port : Nat) (addrs : List String) :
    (∀ t ∈ (addrLoop6 stp port addrs).1,
       t.family = AF_INET6 ∧ sockAddrHost t.sockaddr = "::1")
    ∧ (∀ t ∈ (addrLoop6 stp port addrs).2,
       t.family = AF_INET6 ∧ sockAddrHost t.sockaddr ≠ "::1") := by
  induction addrs with
  | nil => simp [addrLoop6]
  | cons a rest ih =>
    by_cases ha : a = "::1"
    · refine ⟨fun t ht => ?_, fun t ht => ?_⟩
      · rw [addrLoop6, if_pos ha] at ht
        rcases List.mem_append.1 ht with h1 | h1
        · rcases mem_expand6 h1 with ⟨hf, hh⟩
          exact ⟨hf, by rw [hh, ha]⟩
        · exact ih.1 t h1
      · rw [addrLoop6, if_pos ha] at ht
        exact ih.2 t ht
    · refine ⟨fun t ht => ?_, fun t ht => ?_⟩
      · rw [addrLoop6, if_neg ha] at ht
        exact ih.1 t ht
      · rw [addrLoop6, if_neg ha] at ht
        rcases List.mem_append.1 ht with h1 | h1
        · rcases mem_expand6 h1 with ⟨hf, hh⟩
          exact ⟨hf, by rw [hh]; exact ha⟩
        · exact ih.2 t h1

lemma mem_valuesLoop (stp : List (Nat × Nat)) (port : Nat) (values : List HostResult) :
    (∀ t ∈ (valuesLoop stp port values).1,
       t.family = AF_INET6 ∧ sockAddrHost t.sockaddr = "::1")
    ∧ (∀ t ∈ (valuesLoop stp port values).2.1, t.family = AF_INET)
    ∧ (∀ t ∈ (valuesLoop stp port values).2.2,
       t.family = AF_INET6 ∧ sockAddrHost t.sockaddr ≠ "::1") := by
  induction values with
  | nil => simp [valuesLoop]
  | cons r rest ih =>
    by_cases h4 : r.family = AF_INET
    · refine ⟨fun t ht => ?_, fun t ht => ?_, fun t ht => ?_⟩
      · rw [valuesLoop, if_pos h4] at ht
        exact ih.1 t ht
      · rw [valuesLoop, if_pos h4] at ht
        rcases List.mem_append.1 ht with h1 | h1
        · rcases List.mem_flatMap.1 h1 with ⟨a, _, hta⟩
          exact mem_expand4 hta
        · exact ih.2.1 t h1
      · rw [valuesLoop, if_pos h4] at ht
        exact ih.2.2 t ht
    · by_cases h6 : r.family = AF_INET6
      · refine ⟨fun t ht => ?_, fun t ht => ?_, fun t ht => ?_⟩
        · rw [valuesLoop, if_neg h4, if_pos h6] at ht
          rcases List.mem_append.1 ht with h1 | h1
          · exact (mem_addrLoop6 stp port r.addrs).1 t h1
          · exact ih.1 t h1
        · rw [valuesLoop, if_neg h4, if_pos h6] at ht
          exact ih.2.1 t ht
        · rw [valuesLoop, if_neg h4, if_pos h6] at ht
          rcases List.mem_append.1 ht with h1 | h1
          · exact (mem_addrLoop6 stp port r.addrs).2 t h1
          · exact ih.2.2 t h1
      · refine ⟨fun t ht => ?_, fun t ht => ?_, fun t ht => ?_⟩
        · rw [valuesLoop, if_neg h4, if_neg h6] at ht
          exact ih.1 t ht
        · rw [valuesLoop, if_neg h4, if_neg h6] at ht
          exact ih.2.1 t ht
        · rw [valuesLoop, if_neg h4, if_neg h6] at ht
          exact ih.2.2 t ht

lemma assembleValues_ok_inv {stp : List (Nat × Nat)} {port : Nat} {values : List HostResult}
    {l : List ResTuple} (h : assembleValues stp port values = .ok l) :
    l = (valuesLoop stp port values).1 ++ (valuesLoop stp port values).2.1
          ++ (valuesLoop stp port values).2.2
    ∧ l.isEmpty = false := by
  dsimp only [assembleValues] at h
  split at h
  · cases h
  · rename_i hne
    injection h with h
    subst h
    rw [List.append_assoc] at hne ⊢
    exact ⟨rfl, Bool.of_not_eq_true hne⟩

lemma assembleValues_error_inv {stp : List (Nat × Nat)} {port : Nat} {values : List HostResult}
    {e : Gai} (h : assembleValues stp port values = .error e) :
    e = ⟨-5, "No address associated with hostname"⟩ := by
  dsimp only [assembleValues] at h
  split at h
  · injection h with h
    exact h.symm
  · cases h

lemma getaddrinfoSlow_ok_inv {eng : AresEngine} {family port : Nat}
    {socktypes : List Nat} {proto : Nat} {l : List ResTuple}
    (h : getaddrinfoSlow eng family port socktypes proto = .ok l) :
    ∃ values, assembleValues (socktypeProto socktypes proto) port values = .ok l := by
  dsimp only [getaddrinfoSlow] at h
  cases hq : queryEvents eng family with
  | error e => rw [hq] at h; cases h
  | ok events =>
    rw [hq] at h
    dsimp only at h
    cases hv : valuesGet (valuesRun events) with
    | error e => rw [hv] at h; cases h
    | ok values0 =>
      rw [hv] at h
      exact ⟨dedupValues values0, h⟩

lemma foldl_valuesCall_values (events : List (Except Gai HostResult)) :
    ∀ st : ValuesState, (events.foldl valuesCall st).values = st.values ++ successes events := by
  induction events with
  | nil => intro st; simp [successes]
  | cons e rest ih =>
    intro st
    rw [List.foldl_cons, ih]
    cases e with
    | ok v => simp [valuesCall, successes]
    | error g => simp [valuesCall, successes]

lemma foldl_valuesCall_error (events : List (Except Gai HostResult)) :
    ∀ st : ValuesState,
      (events.foldl valuesCall st).error
        = match lastErrOf events with
          | some g => some g
          | none => st.error := by
  induction events with
  | nil => intro st; simp [lastErrOf]
  | cons e rest ih =>
    intro st
    rw [List.foldl_cons, ih]
    cases hl : lastErrOf rest with
    | some g => cases e <;> simp [lastErrOf, hl, valuesCall]
    | none => cases e <;> simp [lastErrOf, hl, valuesCall]

lemma successes_ne_nil_of_mem {events : List (Except Gai HostResult)} {v : HostResult}
    (h : Except.ok v ∈ events) : successes events ≠ [] := by
  induction events with
  | nil => cases h
  | cons e rest ih =>
    cases e with
    | ok w => simp [successes]
    | error g =>
      rcases List.mem_cons.1 h with h1 | h1
      · cases h1
      · simpa [successes] using ih h1

lemma valuesGet_run_ok {events : List (Except Gai HostResult)}
    (h : ∃ v, Except.ok v ∈ events) :
    valuesGet (valuesRun events) = .ok (successes events) := by
  rcases h with ⟨v, hv⟩
  have hval : (valuesRun events).values = successes events := by
    simpa using foldl_valuesCall_values events
      { count := (events.length : Int), values := [], error := none }
  rw [valuesGet, hval, if_neg]
  simp [List.isEmpty_iff, successes_ne_nil_of_mem hv]

lemma valuesGet_run_error {events : List (Except Gai HostResult)} {g : Gai}
    (hs : successes events = []) (hl : lastErrOf events = some g) :
    valuesGet (valuesRun events) = .error g := by
  have hval : (valuesRun events).values = successes events := by
    simpa using foldl_valuesCall_values events
      { count := (events.length : Int), values := [], error := none }
  have herr : (valuesRun events).error = some g := by
    have := foldl_valuesCall_error events
      { count := (events.length : Int), values := [], error := none }
    rw [valuesRun, this, hl]
  rw [valuesGet, hval, hs]
  simp [herr]

/-! ### Claim theorems -/

/-- C1: for every successful run of the slow path of `_getaddrinfo`, the
returned list splits as `A ++ B ++ C` where every tuple of `A` is an IPv6
result whose socket address is the loopback `::1`, every tuple of `B` is an
IPv4 result, and every tuple of `C` is a non-loopback IPv6 result; hence
every `::1` tuple precedes every IPv4 tuple, which precedes every other
IPv6 tuple. -/
theorem getaddrinfo_result_ordering (eng : AresEngine) (family port : Nat)
    (socktypes : List Nat) (proto : Nat) (l : List ResTuple)
    (h : getaddrinfoSlow eng family port socktypes proto = .ok l) :
    ∃ A B C, l = A ++ B ++ C
      ∧ (∀ t ∈ A, t.family = AF_INET6 ∧ sockAddrHost t.sockaddr = "::1")
      ∧ (∀ t ∈ B, t.family = AF_INET)
      ∧ (∀ t ∈ C, t.family = AF_INET6 ∧ sockAddrHost t.sockaddr ≠ "::1") := by
  rcases getaddrinfoSlow_ok_inv h with ⟨values, hv⟩
  rcases assembleValues_ok_inv hv with ⟨hl, _⟩
  rcases mem_valuesLoop (socktypeProto socktypes proto) port values with ⟨hA, hB, hC⟩
  exact ⟨_, _, _, by rw [hl, List.append_assoc], hA, hB, hC⟩

/-- Closed witness for `getaddrinfo_result_ordering`: a concrete dual-family
answer with one IPv4 address and the IPv6 addresses `::1` and `fe80::1`. -/
theorem getaddrinfo_result_ordering_witness :
    getaddrinfoSlow ⟨.ok ⟨AF_INET, "h", ["al"], ["1.2.3.4"]⟩,
        .ok ⟨AF_INET6, "h", ["al"], ["::1", "fe80::1"]⟩, true⟩ AF_UNSPEC 80 [SOCK_DGRAM] 0
      = .ok [⟨AF_INET6, SOCK_DGRAM, 17, "", .v6 "::1" 80 0 0⟩,
             ⟨AF_INET, SOCK_DGRAM, 17, "", .v4 "1.2.3.4" 80⟩,
             ⟨AF_INET6, SOCK_DGRAM, 17, "", .v6 "fe80::1" 80 0 0⟩]
    ∧ ∃ A B C,
        ([⟨AF_INET6, SOCK_DGRAM, 17, "", .v6 "::1" 80 0 0⟩,
          ⟨AF_INET, SOCK_DGRAM, 17, "", .v4 "1.2.3.4" 80⟩,
          ⟨AF_INET6, SOCK_DGRAM, 17, "", .v6 "fe80::1" 80 0 0⟩] : List ResTuple)
            = A ++ B ++ C
        ∧ (∀ t ∈ A, t.family = AF_INET6 ∧ sockAddrHost t.sockaddr = "::1")
        ∧ (∀ t ∈ B, t.family = AF_INET)
        ∧ (∀ t ∈ C, t.family = AF_INET6 ∧ sockAddrHost t.sockaddr ≠ "::1") :=
  ⟨rfl, getaddrinfo_result_ordering
    ⟨.ok ⟨AF_INET, "h", ["al"], ["1.2.3.4"]⟩,
        .ok ⟨AF_INET6, "h", ["al"], ["::1", "fe80::1"]⟩, true⟩ AF_UNSPEC 80 [SOCK_DGRAM] 0
    [⟨AF_INET6, SOCK_DGRAM, 17, "", .v6 "::1" 80 0 0⟩,
     ⟨AF_INET, SOCK_DGRAM, 17, "", .v4 "1.2.3.4" 80⟩,
     ⟨AF_INET6, SOCK_DGRAM, 17, "", .v6 "fe80::1" 80 0 0⟩] rfl⟩

/-- C2: the `_Values` aggregator joining the dual-family sub-queries has
any-success semantics: if at least one completion succeeded, `get()`
returns the non-empty list of collected values in arrival order; if every
completion failed, `get()` raises the last recorded error. -/
theorem values_aggregator_partial_failure (events : List (Except Gai HostResult)) :
    ((∃ v, Except.ok v ∈ events) →
       successes events ≠ []
       ∧ valuesGet (valuesRun events) = .ok (successes events))
    ∧ (∀ g, successes events = [] → lastErrOf events = some g →
       valuesGet (valuesRun events) = .error g) :=
  ⟨fun h => ⟨successes_ne_nil_of_mem h.choose_spec, valuesGet_run_ok h⟩,
   fun _ hs hl => valuesGet_run_error hs hl⟩

/-- Closed witness for `values_aggregator_partial_failure`: a dual-family
run where the IPv4 query fails and the IPv6 query succeeds, and one where
both fail with distinct errors. -/
theorem values_aggregator_partial_failure_witness :
    (successes [Except.error ⟨4, "not found"⟩,
                Except.ok (⟨AF_INET6, "h", [], ["::1"]⟩ : HostResult)] ≠ []
     ∧ valuesGet (valuesRun [Except.error ⟨4, "not found"⟩,
                Except.ok (⟨AF_INET6, "h", [], ["::1"]⟩ : HostResult)])
         = .ok (successes [Except.error ⟨4, "not found"⟩,
                Except.ok (⟨AF_INET6, "h", [], ["::1"]⟩ : HostResult)]))
    ∧ valuesGet (valuesRun [Except.error ⟨4, "not found"⟩,
        (Except.error ⟨1, "timeout"⟩ : Except Gai HostResult)]) = .error ⟨1, "timeout"⟩ :=
  ⟨(values_aggregator_partial_failure _).1 ⟨_, List.mem_cons_of_mem _ (List.mem_singleton.2 rfl)⟩,
   (values_aggregator_partial_failure _).2 ⟨1, "timeout"⟩ rfl rfl⟩

lemma retryLoop_error_genuine {α : Type} (atts : List (Except Gai α × Nat)) :
    ∀ s e, retryLoop s atts = some (.error e) →
      ∃ k, ∃ hk : k < atts.length,
        (atts.get ⟨k, hk⟩).1 = .error e
        ∧ (atts.get ⟨k, hk⟩).2 = sessionBefore s atts k := by
  induction atts with
  | nil => intro s e h; cases h
  | cons a rest ih =>
    intro s e h
    obtain ⟨out, s2⟩ := a
    cases out with
    | ok v => rw [retryLoop] at h; cases h
    | error e0 =>
      rw [retryLoop] at h
      by_cases hs : s2 = s
      · rw [if_pos hs] at h
        injection h with h
        injection h with h
        subst h
        exact ⟨0, Nat.succ_pos _, rfl, by rw [hs]; rfl⟩
      · rw [if_neg hs] at h
        rcases ih s2 e h with ⟨k, hk, h1, h2⟩
        exact ⟨k + 1, Nat.succ_lt_succ hk, h1, h2⟩

/-- C3: the retry loop wrapping every public facade operation.  A
successful attempt returns; a failing attempt whose captured session token
still equals the current one propagates its error; a failing attempt whose
session changed retries the whole operation against the new session; and
any error the loop ever returns was produced by an attempt whose current
session token equalled the token captured at that attempt's start — a
failure against the current session is surfaced, never swallowed. -/
theorem retry_loop_identity_check {α : Type} (s : Nat) (atts : List (Except Gai α × Nat)) :
    (∀ (v : α) (s2 : Nat) (rest : List (Except Gai α × Nat)),
        retryLoop s ((Except.ok v, s2) :: rest) = some (.ok v))
    ∧ (∀ (e : Gai) (s2 : Nat) (rest : List (Except Gai α × Nat)), s2 = s →
        retryLoop s ((Except.error e, s2) :: rest) = some (.error e))
    ∧ (∀ (e : Gai) (s2 : Nat) (rest : List (Except Gai α × Nat)), s2 ≠ s →
        retryLoop s ((Except.error e, s2) :: rest) = retryLoop s2 rest)
    ∧ (∀ e, retryLoop s atts = some (.error e) →
        ∃ k, ∃ hk : k < atts.length,
          (atts.get ⟨k, hk⟩).1 = .error e
          ∧ (atts.get ⟨k, hk⟩).2 = sessionBefore s atts k) :=
  ⟨fun v s2 rest => rfl,
   fun e s2 rest hs => by rw [retryLoop, if_pos hs],
   fun e s2 rest hs => by rw [retryLoop, if_neg hs],
   fun e => retryLoop_error_genuine atts s e⟩

/-- Closed witness for `retry_loop_identity_check`: a stale failure (the
session changed from 5 to 9 mid-flight) is retried and the second attempt's
failure against the unchanged session 9 is surfaced; the surfaced error is
traced back to attempt 1, whose captured session equals its end session. -/
theorem retry_loop_identity_check_witness :
    retryLoop 5 ([(Except.error ⟨1, "x"⟩, 9), (Except.error ⟨2, "y"⟩, 9)]
        : List (Except Gai Nat × Nat))
      = retryLoop 9 [(Except.error ⟨2, "y"⟩, 9)]
    ∧ retryLoop 9 ([(Except.error ⟨2, "y"⟩, 9)] : List (Except Gai Nat × Nat))
      = some (.error ⟨2, "y"⟩)
    ∧ ∃ k, ∃ hk : k < ([(Except.error ⟨1, "x"⟩, 9), (Except.error ⟨2, "y"⟩, 9)]
        : List (Except Gai Nat × Nat)).length,
        (([(Except.error ⟨1, "x"⟩, 9), (Except.error ⟨2, "y"⟩, 9)]
          : List (Except Gai Nat × Nat)).get ⟨k, hk⟩).1 = .error ⟨2, "y"⟩
        ∧ (([(Except.error ⟨1, "x"⟩, 9), (Except.error ⟨2, "y"⟩, 9)]
          : List (Except Gai Nat × Nat)).get ⟨k, hk⟩).2
            = sessionBefore 5 ([(Except.error ⟨1, "x"⟩, 9), (Except.error ⟨2, "y"⟩, 9)]
                : List (Except Gai Nat × Nat)) k :=
  ⟨(retry_loop_identity_check 5 ([] : List (Except Gai Nat × Nat))).2.2.1
      ⟨1, "x"⟩ 9 [(Except.error ⟨2, "y"⟩, 9)] (by decide),
   (retry_loop_identity_check 9 ([] : List (Except Gai Nat × Nat))).2.1
      ⟨2, "y"⟩ 9 [] rfl,
   (retry_loop_identity_check 5
      ([(Except.error ⟨1, "x"⟩, 9), (Except.error ⟨2, "y"⟩, 9)]
        : List (Except Gai Nat × Nat))).2.2.2 ⟨2, "y"⟩ rfl⟩

/-- Marks the outcomes of `_getnameinfo` that issue the native query. -/
def issuesQuery : NameInfoPre → Bool
  | .query _ _ => true
  | _ => false

/-- C4 counterexample: a name-info call whose 2-element socket-address
`("::1", 80)` resolves to a single IPv6 result does NOT raise a structural
error — `_getnameinfo` rebuilds the address as `address[:2] + sockaddr[2:]`
(here `("::1", 80)`) and issues the native name-info query with it. -/
theorem getnameinfo_ipv6_two_tuple_counterexample :
    getnameinfoPre (.ok [⟨AF_INET6, SOCK_DGRAM, 17, "", .v6 "::1" 80 0 0⟩])
        ⟨"::1", 80, []⟩ 0
      = .query ("::1", 80, []) 0
    ∧ issuesQuery (getnameinfoPre (.ok [⟨AF_INET6, SOCK_DGRAM, 17, "", .v6 "::1" 80 0 0⟩])
        ⟨"::1", 80, []⟩ 0) = true :=
  ⟨rfl, rfl⟩

/-- C4 (amended): for every name-info call whose host part resolves to a
single IPv6 address, no structural error is raised for a short tuple; the
native query is issued with the canonical address truncated to its first
two fields and extended with the supplied tuple's elements past the second
(so a 2-element socket-address yields a 2-element query address). -/
theorem getnameinfo_ipv6_extends_sockaddr (fwd : Except Gai (List ResTuple))
    (t : ResTuple) (sa : PySockAddr) (flags : Nat)
    (hf : fwd = .ok [t]) (h6 : t.family = AF_INET6) :
    getnameinfoPre fwd sa flags = .query (truncExtend t.sockaddr sa.rest) flags := by
  subst hf
  simp [getnameinfoPre, h6, AF_INET, AF_INET6]

/-- Closed witness for `getnameinfo_ipv6_extends_sockaddr` at the inputs of
the counterexample. -/
theorem getnameinfo_ipv6_extends_sockaddr_witness :
    getnameinfoPre (.ok [⟨AF_INET6, SOCK_DGRAM, 17, "", .v6 "2001:db8::2" 443 0 0⟩])
        ⟨"2001:db8::2", 443, []⟩ 3
      = .query ("2001:db8::2", 443, []) 3 :=
  getnameinfo_ipv6_extends_sockaddr _
    ⟨AF_INET6, SOCK_DGRAM, 17, "", .v6 "2001:db8::2" 443 0 0⟩
    ⟨"2001:db8::2", 443, []⟩ 3 rfl rfl

/-- C5: whenever the engine cannot resolve `255.255.255.255` (each attempt
either fails with a `gaierror` or returns an empty address list — which is
what the code's own comment records c-ares does for this literal), any
result `gethostbyname_ex` returns for it is exactly the hardcoded triple
`("255.255.255.255", [], ["255.255.255.255"])`, across any sequence of
session replacements. -/
theorem gethostbyname_ex_broadcast (s : Nat) (atts : List (Except Gai HostResult × Nat))
    (hfail : ∀ a ∈ atts,
      (∃ e, a.1 = Except.error e) ∨ ∃ r, a.1 = Except.ok r ∧ r.addrs = [])
    (out : Except Gai (String × List String × List String))
    (hret : gethostbynameExLoop "255.255.255.255" s atts = some out) :
    out = .ok broadcastTriple := by
  induction atts generalizing s with
  | nil => cases hret
  | cons a rest ih =>
    obtain ⟨resp, s2⟩ := a
    have hinner : ∃ e, gethostbynameExInner resp = .error e := by
      rcases hfail (resp, s2) (List.mem_cons_self _ _) with ⟨e, he⟩ | ⟨r, hr, hre⟩
      · dsimp only at he
        exact ⟨e, by rw [he]; rfl⟩
      · dsimp only at hr
        refine ⟨⟨-5, "No address associated with hostname"⟩, ?_⟩
        rw [hr, gethostbynameExInner]
        simp [hre]
    rcases hinner with ⟨e, he⟩
    rw [gethostbynameExLoop, he] at hret
    dsimp only at hret
    by_cases hs : s2 = s
    · rw [if_pos hs, if_pos rfl] at hret
      injection hret with hret
      exact hret.symm
    · rw [if_neg hs] at hret
      exact ih s2 (fun a ha => hfail a (List.mem_cons_of_mem _ ha)) hret

/-- Closed witness for `gethostbyname_ex_broadcast`: the engine rejects the
broadcast literal once with `gaierror(4)` against a stable session. -/
theorem gethostbyname_ex_broadcast_witness :
    gethostbynameExLoop "255.255.255.255" 0 [(Except.error ⟨4, "not found"⟩, 0)]
      = some (.ok broadcastTriple)
    ∧ (Except.ok broadcastTriple
        : Except Gai (String × List String × List String)) = .ok broadcastTriple :=
  ⟨rfl, gethostbyname_ex_broadcast 0 [(Except.error ⟨4, "not found"⟩, 0)]
    (by simp) (.ok broadcastTriple) rfl⟩

/-- C6: when the engine rejects `ip` as a syntactically invalid address,
`_gethostbyaddr` falls back to forward resolution; if the first numeric
address of that (non-empty) forward result equals `ip`, the original
`InvalidIP` error is re-raised, and otherwise the reverse query is retried
exactly once with that canonical numeric address, whose outcome is the
operation's outcome. -/
theorem gethostbyaddr_invalid_fallback (rev : String → RevResp)
    (fwd : Except Gai (List ResTuple)) (ip : String) (t : ResTuple)
    (rest : List ResTuple) (hinv : rev ip = RevResp.invalidIP)
    (hf : fwd = .ok (t :: rest)) :
    (sockAddrHost t.sockaddr = ip →
       gethostbyaddrAttempt rev fwd ip = .invalidIPRaised ip)
    ∧ (sockAddrHost t.sockaddr ≠ ip →
       gethostbyaddrAttempt rev fwd ip
         = revOutcomeOf (rev (sockAddrHost t.sockaddr)) (sockAddrHost t.sockaddr)) := by
  subst hf
  constructor <;> intro h <;> simp [gethostbyaddrAttempt, hinv, h]

/-- Closed witness for `gethostbyaddr_invalid_fallback`: the engine rejects
`"bogus"`, forward resolution canonicalises it to `"1.2.3.4"` (≠ input), so
the reverse query is retried with `"1.2.3.4"` and its triple is returned;
and for a forward result equal to the input, `InvalidIP` is re-raised. -/
theorem gethostbyaddr_invalid_fallback_witness :
    gethostbyaddrAttempt
        (fun a => if a = "1.2.3.4" then RevResp.ok ("h", [], ["1.2.3.4"])
                  else RevResp.invalidIP)
        (.ok [⟨AF_INET, SOCK_DGRAM, 17, "", .v4 "1.2.3.4" 0⟩]) "bogus"
      = .ok ("h", [], ["1.2.3.4"])
    ∧ gethostbyaddrAttempt (fun _ => RevResp.invalidIP)
        (.ok [⟨AF_INET, SOCK_DGRAM, 17, "", .v4 "bogus" 0⟩]) "bogus"
      = .invalidIPRaised "bogus" :=
  ⟨(gethostbyaddr_invalid_fallback
      (fun a => if a = "1.2.3.4" then RevResp.ok ("h", [], ["1.2.3.4"])
                else RevResp.invalidIP)
      (.ok [⟨AF_INET, SOCK_DGRAM, 17, "", .v4 "1.2.3.4" 0⟩]) "bogus"
      ⟨AF_INET, SOCK_DGRAM, 17, "", .v4 "1.2.3.4" 0⟩ [] rfl rfl).2 (by decide),
   (gethostbyaddr_invalid_fallback (fun _ => RevResp.invalidIP)
      (.ok [⟨AF_INET, SOCK_DGRAM, 17, "", .v4 "bogus" 0⟩]) "bogus"
      ⟨AF_INET, SOCK_DGRAM, 17, "", .v4 "bogus" 0⟩ [] rfl rfl).1 rfl⟩

lemma getaddrinfoSlow_never_ok_empty (eng : AresEngine) (family port : Nat)
    (socktypes : List Nat) (proto : Nat) :
    isOkEmpty (getaddrinfoSlow eng family port socktypes proto) = false := by
  cases h : getaddrinfoSlow eng family port socktypes proto with
  | error e => rfl
  | ok l =>
    rcases getaddrinfoSlow_ok_inv h with ⟨values, hv⟩
    rcases assembleValues_ok_inv hv with ⟨_, hne⟩
    cases l with
    | nil => cases hne
    | cons t rest => rfl

lemma resp4_mem_unspecEvents (eng : AresEngine) : eng.resp4 ∈ unspecEvents eng := by
  cases h : eng.inetFirst <;> simp [unspecEvents, h]

lemma resp6_mem_unspecEvents (eng : AresEngine) : eng.resp6 ∈ unspecEvents eng := by
  cases h : eng.inetFirst <;> simp [unspecEvents, h]

/-- C7 counterexample: a dual-family lookup in which both sub-queries fail
with a timeout raises the last recorded timeout error, not the
`No address associated with hostname` failure named by the claim. -/
theorem getaddrinfo_unspec_error_counterexample :
    getaddrinfoSlow ⟨.error ⟨110, "Timeout while contacting DNS servers"⟩,
        .error ⟨11, "Timeout while contacting DNS servers"⟩, true⟩ AF_UNSPEC 80 [] 0
      = .error ⟨11, "Timeout while contacting DNS servers"⟩
    ∧ "Timeout while contacting DNS servers" ≠ "No address associated with hostname" :=
  ⟨rfl, by decide⟩

/-- C7 (amended): a family-unspecified lookup that finds no addresses
raises a resolution failure and never returns an empty list: when at least
one sub-query succeeded but assembly produced nothing, the failure is
`gaierror(-5, No address associated with hostname)`; when both sub-queries
failed, the failure raised is the last recorded sub-query error. -/
theorem getaddrinfo_unspec_failure (eng : AresEngine) (port : Nat)
    (socktypes : List Nat) (proto : Nat) :
    isOkEmpty (getaddrinfoSlow eng AF_UNSPEC port socktypes proto) = false
    ∧ (∀ e, getaddrinfoSlow eng AF_UNSPEC port socktypes proto = .error e →
        ((∃ r, eng.resp4 = .ok r) ∨ (∃ r, eng.resp6 = .ok r)) →
        e = ⟨-5, "No address associated with hostname"⟩)
    ∧ (∀ e4 e6, eng.resp4 = .error e4 → eng.resp6 = .error e6 →
        getaddrinfoSlow eng AF_UNSPEC port socktypes proto
          = .error (if eng.inetFirst then e6 else e4)) := by
  refine ⟨getaddrinfoSlow_never_ok_empty eng AF_UNSPEC port socktypes proto,
    fun e he hok => ?_, fun e4 e6 h4 h6 => ?_⟩
  · have hex : ∃ v, Except.ok v ∈ unspecEvents eng := by
      rcases hok with ⟨r, hr⟩ | ⟨r, hr⟩
      · exact ⟨r, hr ▸ resp4_mem_unspecEvents eng⟩
      · exact ⟨r, hr ▸ resp6_mem_unspecEvents eng⟩
    have hq : queryEvents eng AF_UNSPEC = .ok (unspecEvents eng) := by
      rw [queryEvents, if_pos rfl]
    rw [getaddrinfoSlow, hq] at he
    dsimp only at he
    rw [valuesGet_run_ok hex] at he
    exact assembleValues_error_inv he
  · have hq : queryEvents eng AF_UNSPEC = .ok (unspecEvents eng) := by
      rw [queryEvents, if_pos rfl]
    rw [getaddrinfoSlow, hq]
    dsimp only
    cases hif : eng.inetFirst with
    | true =>
      have hev : unspecEvents eng = [Except.error e4, Except.error e6] := by
        rw [unspecEvents, if_pos hif, h4, h6]
      rw [hev, valuesGet_run_error (g := e6) (by rfl) (by rfl)]
      rfl
    | false =>
      have hev : unspecEvents eng = [Except.error e6, Except.error e4] := by
        rw [unspecEvents, hif, h4, h6]
        rfl
      rw [hev, valuesGet_run_error (g := e4) (by rfl) (by rfl)]
      rfl

/-- Closed witness for `getaddrinfo_unspec_failure`: the IPv4 query
succeeds with an empty address list and the IPv6 query fails, so the
raised error is `gaierror(-5)`; and a both-failed run raises the last
(IPv6-arrival) error. -/
theorem getaddrinfo_unspec_failure_witness :
    (⟨-5, "No address associated with hostname"⟩ : Gai)
      = ⟨-5, "No address associated with hostname"⟩
    ∧ getaddrinfoSlow ⟨.error ⟨110, "timeout"⟩, .error ⟨11, "try again"⟩, true⟩
        AF_UNSPEC 80 [] 0
      = .error (if true then ⟨11, "try again"⟩ else ⟨110, "timeout"⟩) :=
  ⟨(getaddrinfo_unspec_failure ⟨.ok ⟨AF_INET, "h", [], []⟩, .error ⟨4, "not found"⟩, true⟩
      80 [] 0).2.1 ⟨-5, "No address associated with hostname"⟩ rfl
      (Or.inl ⟨⟨AF_INET, "h", [], []⟩, rfl⟩),
   (getaddrinfo_unspec_failure ⟨.error ⟨110, "timeout"⟩, .error ⟨11, "try again"⟩, true⟩
      80 [] 0).2.2 ⟨110, "timeout"⟩ ⟨11, "try again"⟩ rfl rfl⟩

/-- C8: `_on_fork` on a pid change schedules destruction of the old
session (it is never destroyed synchronously inside the handler),
synchronously constructs a fresh session with the original creation
parameters, and updates the stored pid; with the pid unchanged the state
is left untouched. -/
theorem on_fork_session_replacement (st : ResolverState) (newPid freshIdent : Nat) :
    (newPid ≠ st.pid →
       (onFork st newPid freshIdent).pid = newPid
       ∧ (onFork st newPid freshIdent).cares = ⟨freshIdent, st.params⟩
       ∧ (onFork st newPid freshIdent).params = st.params
       ∧ (onFork st newPid freshIdent).scheduledDestroy
           = st.scheduledDestroy ++ [st.cares]
       ∧ (onFork st newPid freshIdent).destroyed = st.destroyed)
    ∧ (newPid = st.pid → onFork st newPid freshIdent = st) := by
  constructor <;> intro h <;> simp [onFork, h]

/-- Closed witness for `on_fork_session_replacement`: a fork from pid 100
to pid 101 replaces session 1 by a fresh session 2 with the same
parameters, schedules session 1 for destruction, and destroys nothing. -/
theorem on_fork_session_replacement_witness :
    ((onFork ⟨⟨1, 7⟩, 100, 7, [], []⟩ 101 2).pid = 101
       ∧ (onFork ⟨⟨1, 7⟩, 100, 7, [], []⟩ 101 2).cares = ⟨2, 7⟩
       ∧ (onFork ⟨⟨1, 7⟩, 100, 7, [], []⟩ 101 2).params = 7
       ∧ (onFork ⟨⟨1, 7⟩, 100, 7, [], []⟩ 101 2).scheduledDestroy = [] ++ [⟨1, 7⟩]
       ∧ (onFork ⟨⟨1, 7⟩, 100, 7, [], []⟩ 101 2).destroyed = [])
    ∧ onFork ⟨⟨1, 7⟩, 100, 7, [], []⟩ 100 2 = ⟨⟨1, 7⟩, 100, 7, [], []⟩ :=
  ⟨(on_fork_session_replacement ⟨⟨1, 7⟩, 100, 7, [], []⟩ 101 2).1 (by decide),
   (on_fork_session_replacement ⟨⟨1, 7⟩, 100, 7, [], []⟩ 100 2).2 rfl⟩

lemma getnameinfoPre_ok_cons (t : ResTuple) (rest : List ResTuple)
    (sa : PySockAddr) (flags : Nat) :
    isReraiseEmpty (getnameinfoPre (.ok (t :: rest)) sa flags) = false := by
  rw [getnameinfoPre]
  simp only [List.isEmpty_cons, Bool.false_eq_true, if_false]
  split
  · rfl
  · split
    · split
      · rfl
      · rfl
    · split
      · rfl
      · rfl

/-- C9: the slow path of `_getaddrinfo` never returns a successful empty
list (it raises `gaierror(-5)` instead); consequently, whenever the
`_getaddrinfo` call inside `_getnameinfo` takes the slow path, the
`reraise`-on-empty branch is not reached — and likewise the
`if not result: raise` guard of `_gethostbyaddr` (which tests the same
slow-path result) can never fire. -/
theorem getaddrinfo_slow_nonempty_guards :
    (∀ (eng : AresEngine) (family port : Nat) (socktypes : List Nat) (proto : Nat),
       isOkEmpty (getaddrinfoSlow eng family port socktypes proto) = false)
    ∧ (∀ (eng : AresEngine) (family port : Nat) (socktypes : List Nat) (proto : Nat)
         (sa : PySockAddr) (flags : Nat),
       isReraiseEmpty
           (getnameinfoPre (getaddrinfoSlow eng family port socktypes proto) sa flags)
         = false) := by
  refine ⟨getaddrinfoSlow_never_ok_empty, ?_⟩
  intro eng family port socktypes proto sa flags
  cases h : getaddrinfoSlow eng family port socktypes proto with
  | error e => rfl
  | ok l =>
    rcases getaddrinfoSlow_ok_inv h with ⟨values, hv⟩
    rcases assembleValues_ok_inv hv with ⟨_, hne⟩
    cases l with
    | nil => cases hne
    | cons t rest => exact getnameinfoPre_ok_cons t rest sa flags

/-- C10: a name-info call whose host part resolves to a single IPv4
address raises `socket.error(IPv4 sockaddr must be 2 tuple)` before the
native name-info query is issued whenever the supplied socket-address
tuple has a length other than 2. -/
theorem getnameinfo_ipv4_two_tuple (fwd : Except Gai (List ResTuple)) (t : ResTuple)
    (sa : PySockAddr) (flags : Nat) (hf : fwd = .ok [t]) (h4 : t.family = AF_INET)
    (hlen : sa.rest ≠ []) :
    getnameinfoPre fwd sa flags = .sockErr "IPv4 sockaddr must be 2 tuple" := by
  subst hf
  have hne : 2 + sa.rest.length ≠ 2 := by
    intro hc
    exact hlen (List.length_eq_zero.1 (by omega))
  simp [getnameinfoPre, h4, hne]

/-- Closed witness for `getnameinfo_ipv4_two_tuple`: a 3-element
socket-address whose host resolves to the IPv4 address `1.2.3.4`. -/
theorem getnameinfo_ipv4_two_tuple_witness :
    getnameinfoPre (.ok [⟨AF_INET, SOCK_DGRAM, 17, "", .v4 "1.2.3.4" 80⟩])
        ⟨"1.2.3.4", 80, [7]⟩ 0
      = .sockErr "IPv4 sockaddr must be 2 tuple" :=
  getnameinfo_ipv4_two_tuple _ ⟨AF_INET, SOCK_DGRAM, 17, "", .v4 "1.2.3.4" 80⟩
    ⟨"1.2.3.4", 80, [7]⟩ 0 rfl rfl (by decide)

end AresResolver
